import Mathlib

/-!
# Typed transaction envelope: shallow embedding and verification

This file embeds `TypedTransaction` from
`ethers-core/src/types/transaction/eip2718.rs` — the tagged union over the
legacy, EIP-2930 and EIP-1559 transaction request payloads — together with its
accessors, mutators, signing-hash computation and serde-style tagged
(de)serialization, and proves the specified properties about them.

The concrete payload types, their canonical `rlp` encodings and the keccak-256
primitive are external collaborators whose sources are not part of the core
file; they are modelled from the spec where needed (each such definition is
marked `Modelled from the spec:` in its doc comment).  The envelope's own
dispatch logic is translated directly from the source.
-/

/-- Ethereum address (`H160` in the source); modelled as a natural number,
since no claim depends on its 160-bit layout. -/
abbrev Address := Nat

/-- Byte sequence (`Bytes` in the source). -/
abbrev Bytes := List Nat

/-- `NameOrAddress`: a recipient is either a resolvable name or a raw
address; the envelope never resolves names. -/
inductive NameOrAddress where
  | name (s : String)
  | address (a : Address)
deriving DecidableEq, Repr

/-- Modelled from the spec: the concrete legacy payload type
`TransactionRequest` is an external collaborator (its definition is not in the
core file).  The spec requires optional sender / recipient / call-data fields;
`value` is included to express the spec's own worked example (a legacy
transaction to the zero address with value 100).  `from` is written `«from»`
because `from` is a Lean keyword. -/
structure TransactionRequest where
  «from» : Option Address
  «to» : Option NameOrAddress
  value : Option Nat
  data : Option Bytes
deriving DecidableEq, Repr

/-- `TransactionRequest::new()`: all fields unset. -/
def TransactionRequest.new : TransactionRequest :=
  ⟨none, none, none, none⟩

/-- Modelled from the spec: the EIP-2930 payload wraps a legacy-style request
`tx` plus an access list (whose internal layout is out of scope; modelled as a
list of bytes). -/
structure Eip2930TransactionRequest where
  tx : TransactionRequest
  access_list : List Nat
deriving DecidableEq, Repr

/-- Modelled from the spec: the EIP-1559 payload carries its own optional
sender / recipient / value / call-data fields plus a fee field. -/
structure Eip1559TransactionRequest where
  «from» : Option Address
  «to» : Option NameOrAddress
  value : Option Nat
  data : Option Bytes
  max_fee_per_gas : Option Nat
deriving DecidableEq, Repr

/-- The typed transaction envelope: a closed sum over the three variants
(source lines 10–20).  The serde discriminants are `"0x00"`, `"0x01"`,
`"0x02"` in variant order. -/
inductive TypedTransaction where
  | Legacy (inner : TransactionRequest)
  | Eip2930 (inner : Eip2930TransactionRequest)
  | Eip1559 (inner : Eip1559TransactionRequest)
deriving DecidableEq, Repr

/-- `TypedTransaction::from(&self)`: the sender accessor, dispatching to the
active variant's payload. -/
def TypedTransaction.«from» : TypedTransaction → Option Address
  | .Legacy inner => inner.«from»
  | .Eip2930 inner => inner.tx.«from»
  | .Eip1559 inner => inner.«from»

/-- `TypedTransaction::to(&self)`: the recipient accessor. -/
def TypedTransaction.to : TypedTransaction → Option NameOrAddress
  | .Legacy inner => inner.«to»
  | .Eip2930 inner => inner.tx.«to»
  | .Eip1559 inner => inner.«to»

/-- `TypedTransaction::set_to`: overwrites the recipient of the active
variant's payload (the `Into<NameOrAddress>` conversion is applied by the
caller). -/
def TypedTransaction.set_to (t : TypedTransaction) (v : NameOrAddress) : TypedTransaction :=
  match t with
  | .Legacy inner => .Legacy { inner with «to» := some v }
  | .Eip2930 inner => .Eip2930 { inner with tx := { inner.tx with «to» := some v } }
  | .Eip1559 inner => .Eip1559 { inner with «to» := some v }

/-- `TypedTransaction::data(&self)`: the call-data accessor. -/
def TypedTransaction.data : TypedTransaction → Option Bytes
  | .Legacy inner => inner.data
  | .Eip2930 inner => inner.tx.data
  | .Eip1559 inner => inner.data

/-- `TypedTransaction::set_data`: overwrites the call-data of the active
variant's payload. -/
def TypedTransaction.set_data (t : TypedTransaction) (d : Bytes) : TypedTransaction :=
  match t with
  | .Legacy inner => .Legacy { inner with data := some d }
  | .Eip2930 inner => .Eip2930 { inner with tx := { inner.tx with data := some d } }
  | .Eip1559 inner => .Eip1559 { inner with data := some d }

/-- `From<TransactionRequest> for TypedTransaction` (source lines 113–117). -/
def TypedTransaction.fromTransactionRequest (src : TransactionRequest) : TypedTransaction :=
  .Legacy src

/-- `From<Eip2930TransactionRequest> for TypedTransaction` (lines 119–123). -/
def TypedTransaction.fromEip2930TransactionRequest (src : Eip2930TransactionRequest) : TypedTransaction :=
  .Eip2930 src

/-- `From<Eip1559TransactionRequest> for TypedTransaction` (lines 125–129). -/
def TypedTransaction.fromEip1559TransactionRequest (src : Eip1559TransactionRequest) : TypedTransaction :=
  .Eip1559 src

/-- Helper for the modelled encodings: encode an optional natural. -/
def encodeOptNat : Option Nat → List Nat
  | none => [0]
  | some n => [1, n]

/-- Helper for the modelled encodings: encode an optional recipient. -/
def encodeOptNameOrAddress : Option NameOrAddress → List Nat
  | none => [0]
  | some (.name s) => 1 :: s.length :: (s.toList.map Char.toNat)
  | some (.address a) => [2, a]

/-- Helper for the modelled encodings: encode an optional byte sequence. -/
def encodeOptBytes : Option Bytes → List Nat
  | none => [0]
  | some bs => 1 :: bs.length :: bs

/-- Modelled from the spec: `TransactionRequest::rlp(chain_id)`, the legacy
payload's canonical unsigned encoding, is an external collaborator whose exact
byte layout is out of scope; the spec requires only that it be a deterministic
function of the field values and the chain id, which any concrete encoding of
all fields plus the chain id satisfies. -/
def TransactionRequest.rlp (tx : TransactionRequest) (chain_id : Nat) : List Nat :=
  encodeOptNat tx.«from» ++ encodeOptNameOrAddress tx.«to» ++
    encodeOptNat tx.value ++ encodeOptBytes tx.data ++ [chain_id]

/-- Modelled from the spec: `Eip2930TransactionRequest::rlp(chain_id)`, the
access-list payload's canonical unsigned encoding (external collaborator,
deterministic in the fields and the chain id). -/
def Eip2930TransactionRequest.rlp (tx : Eip2930TransactionRequest) (chain_id : Nat) : List Nat :=
  tx.tx.rlp chain_id ++ tx.access_list.length :: tx.access_list

/-- Modelled from the spec: `Eip1559TransactionRequest::rlp(chain_id)`, the
fee-market payload's canonical unsigned encoding (external collaborator,
deterministic in the fields and the chain id). -/
def Eip1559TransactionRequest.rlp (tx : Eip1559TransactionRequest) (chain_id : Nat) : List Nat :=
  encodeOptNat tx.«from» ++ encodeOptNameOrAddress tx.«to» ++
    encodeOptNat tx.value ++ encodeOptBytes tx.data ++
    encodeOptNat tx.max_fee_per_gas ++ [chain_id]

/-- The byte sequence `encoded` that `TypedTransaction::sighash` (source lines
91–110) feeds to `keccak256`: the source pushes the literal byte `0`, `1` or
`2` for the `Legacy`, `Eip2930` and `Eip1559` variants respectively and then
appends the active payload's `rlp(chain_id)`. -/
def TypedTransaction.sighashInput (t : TypedTransaction) (chain_id : Nat) : List Nat :=
  match t with
  | .Legacy tx => 0 :: tx.rlp chain_id
  | .Eip2930 tx => 1 :: tx.rlp chain_id
  | .Eip1559 tx => 2 :: tx.rlp chain_id

/-- `TypedTransaction::sighash(chain_id)`: hashes `sighashInput` with the
keccak-256 primitive and returns the digest unchanged.  The hash primitive is
an external collaborator (a fixed 32-byte-output deterministic function), so
it is passed as the parameter `keccak256`. -/
def TypedTransaction.sighash (keccak256 : List Nat → List Nat)
    (t : TypedTransaction) (chain_id : Nat) : List Nat :=
  keccak256 (t.sighashInput chain_id)

/-- The external representation produced by the serde derivation: a JSON-like
value.  Byte sequences appear through the serde data model as a dedicated
constructor, since their textual rendering belongs to the out-of-scope payload
serializers. -/
inductive Json where
  | null
  | str (s : String)
  | num (n : Nat)
  | bytes (bs : List Nat)
  | obj (fields : List (String × Json))

/-- Look a key up in a JSON object's field list (first match wins). -/
def Json.find (key : String) : List (String × Json) → Option Json
  | [] => none
  | (k, v) :: rest => if k = key then some v else Json.find key rest

/-- Remove every entry with the given key, as serde's internally-tagged
deserializer strips the tag field before handing the remaining content to the
variant's own deserializer. -/
def Json.removeKey (key : String) : List (String × Json) → List (String × Json)
  | [] => []
  | (k, v) :: rest =>
    if k = key then Json.removeKey key rest else (k, v) :: Json.removeKey key rest

/-- Emit a field only when the optional value is present (absent optional
fields are valid states, not failures). -/
def optField (key : String) (f : α → Json) : Option α → List (String × Json)
  | none => []
  | some a => [(key, f a)]

/-- Serialize a recipient: names render as strings, raw addresses as
numbers. -/
def NameOrAddress.toJson : NameOrAddress → Json
  | .name s => .str s
  | .address a => .num a

/-- Read an optional numeric field: absence decodes to `none`, a non-numeric
value is a decode failure (outer `none`). -/
def getOptNat (key : String) (fields : List (String × Json)) : Option (Option Nat) :=
  match Json.find key fields with
  | none => some none
  | some (.num n) => some (some n)
  | some _ => none

/-- Read an optional recipient field. -/
def getOptNameOrAddress (key : String) (fields : List (String × Json)) :
    Option (Option NameOrAddress) :=
  match Json.find key fields with
  | none => some none
  | some (.str s) => some (some (.name s))
  | some (.num a) => some (some (.address a))
  | some _ => none

/-- Read an optional byte-sequence field. -/
def getOptBytes (key : String) (fields : List (String × Json)) :
    Option (Option Bytes) :=
  match Json.find key fields with
  | none => some none
  | some (.bytes bs) => some (some bs)
  | some _ => none

/-- Read a mandatory byte-sequence field. -/
def getBytes (key : String) (fields : List (String × Json)) : Option (List Nat) :=
  match Json.find key fields with
  | some (.bytes bs) => some bs
  | _ => none

/-- Modelled from the spec: the legacy payload's own field representation
(its serde derivation is an external collaborator).  Unset optional fields
are omitted. -/
def TransactionRequest.toJsonFields (tx : TransactionRequest) : List (String × Json) :=
  optField "from" Json.num tx.«from» ++ optField "to" NameOrAddress.toJson tx.«to» ++
    optField "value" Json.num tx.value ++ optField "data" Json.bytes tx.data

/-- Modelled from the spec: decode the legacy payload from an object's field
list; missing optional fields decode to `none`, unknown fields are ignored
(serde's default). -/
def TransactionRequest.fromJsonFields (fields : List (String × Json)) :
    Option TransactionRequest := do
  let f ← getOptNat "from" fields
  let t ← getOptNameOrAddress "to" fields
  let v ← getOptNat "value" fields
  let d ← getOptBytes "data" fields
  pure ⟨f, t, v, d⟩

/-- Modelled from the spec: the EIP-2930 payload's field representation — the
wrapped legacy-style fields alongside the always-present access list. -/
def Eip2930TransactionRequest.toJsonFields (tx : Eip2930TransactionRequest) :
    List (String × Json) :=
  tx.tx.toJsonFields ++ [("accessList", Json.bytes tx.access_list)]

/-- Modelled from the spec: decode the EIP-2930 payload from an object's
field list. -/
def Eip2930TransactionRequest.fromJsonFields (fields : List (String × Json)) :
    Option Eip2930TransactionRequest := do
  let tx ← TransactionRequest.fromJsonFields fields
  let al ← getBytes "accessList" fields
  pure ⟨tx, al⟩

/-- Modelled from the spec: the EIP-1559 payload's field representation. -/
def Eip1559TransactionRequest.toJsonFields (tx : Eip1559TransactionRequest) :
    List (String × Json) :=
  optField "from" Json.num tx.«from» ++ optField "to" NameOrAddress.toJson tx.«to» ++
    optField "value" Json.num tx.value ++ optField "data" Json.bytes tx.data ++
    optField "maxFeePerGas" Json.num tx.max_fee_per_gas

/-- Modelled from the spec: decode the EIP-1559 payload from an object's
field list. -/
def Eip1559TransactionRequest.fromJsonFields (fields : List (String × Json)) :
    Option Eip1559TransactionRequest := do
  let f ← getOptNat "from" fields
  let t ← getOptNameOrAddress "to" fields
  let v ← getOptNat "value" fields
  let d ← getOptBytes "data" fields
  let mf ← getOptNat "maxFeePerGas" fields
  pure ⟨f, t, v, d, mf⟩

/-- The fixed two-hex-digit discriminant string of each variant, from the
`#[serde(rename = ...)]` attributes (source lines 12, 15, 18). -/
def TypedTransaction.typeTag : TypedTransaction → String
  | .Legacy _ => "0x00"
  | .Eip2930 _ => "0x01"
  | .Eip1559 _ => "0x02"

/-- The tagged external representation from `#[serde(tag = "type")]`: the
active variant's field representation with the `"type"` discriminant field
embedded alongside (serde emits the tag first). -/
def TypedTransaction.encodeTagged (t : TypedTransaction) : Json :=
  match t with
  | .Legacy p => .obj (("type", .str "0x00") :: p.toJsonFields)
  | .Eip2930 p => .obj (("type", .str "0x01") :: p.toJsonFields)
  | .Eip1559 p => .obj (("type", .str "0x02") :: p.toJsonFields)

/-- Deserialization of the internally tagged envelope: the input must be an
object carrying a string `"type"` field; the tag selects the variant (the
variant set is closed: any other tag is a decode failure, `none`), and the
remaining fields are handed to that variant's payload deserializer. -/
def TypedTransaction.decodeTagged (j : Json) : Option TypedTransaction :=
  match j with
  | .obj fields =>
    match Json.find "type" fields with
    | some (.str t) =>
      if t = "0x00" then
        (TransactionRequest.fromJsonFields (Json.removeKey "type" fields)).map .Legacy
      else if t = "0x01" then
        (Eip2930TransactionRequest.fromJsonFields (Json.removeKey "type" fields)).map .Eip2930
      else if t = "0x02" then
        (Eip1559TransactionRequest.fromJsonFields (Json.removeKey "type" fields)).map .Eip1559
      else none
    | _ => none
  | _ => none

/-- Decoding an external representation directly as the bare legacy payload
type (the shape exercised by the `serde_legacy_tx` test, which deserializes
the envelope's serialization into a `TransactionRequest`). -/
def TransactionRequest.decode (j : Json) : Option TransactionRequest :=
  match j with
  | .obj fields => TransactionRequest.fromJsonFields fields
  | _ => none

/-- The bare untagged external representation of a legacy payload: its field
representation with no `"type"` discriminant field. -/
def TransactionRequest.encodeUntagged (tx : TransactionRequest) : Json :=
  .obj tx.toJsonFields

/-- C1: the claim states that for the `Legacy` variant the input to the
256-bit hash in `sighash` is exactly `rlp(chain_id)` with no discriminant
byte prepended.  The source (line 94) instead pushes the literal byte `0`
before the payload's `rlp(chain_id)` even for `Legacy`, so at the concrete
failing input (a fresh legacy request, chain id 1) the hash input is
`0 :: rlp(chain_id)` and differs from the bare `rlp(chain_id)` the claim and
the spec require. -/
theorem legacy_sighash_input_has_discriminant_byte :
    (TypedTransaction.Legacy TransactionRequest.new).sighashInput 1 =
      0 :: TransactionRequest.new.rlp 1 ∧
    (TypedTransaction.Legacy TransactionRequest.new).sighashInput 1 ≠
      TransactionRequest.new.rlp 1 :=
  ⟨rfl, by decide⟩

/-- C2: for the non-legacy variants, `sighash` hashes exactly the single
discriminant byte (`1` for `Eip2930`, `2` for `Eip1559`) concatenated before
the payload's unsigned encoding `rlp(chain_id)`, with no separators, and
returns the 32-byte digest unmodified. -/
theorem nonlegacy_sighash_tag_then_payload (keccak256 : List Nat → List Nat)
    (hk : ∀ l, (keccak256 l).length = 32)
    (p : Eip2930TransactionRequest) (q : Eip1559TransactionRequest) (chain_id : Nat) :
    TypedTransaction.sighash keccak256 (.Eip2930 p) chain_id =
      keccak256 (1 :: p.rlp chain_id) ∧
    (TypedTransaction.sighash keccak256 (.Eip2930 p) chain_id).length = 32 ∧
    TypedTransaction.sighash keccak256 (.Eip1559 q) chain_id =
      keccak256 (2 :: q.rlp chain_id) ∧
    (TypedTransaction.sighash keccak256 (.Eip1559 q) chain_id).length = 32 :=
  ⟨rfl, hk _, rfl, hk _⟩

/-- C2 witness: the theorem applied at a concrete 32-byte-output hash
function, a concrete EIP-2930 payload and chain id 1. -/
theorem nonlegacy_sighash_tag_then_payload_witness :
    TypedTransaction.sighash (fun _ => List.replicate 32 0)
        (.Eip2930 ⟨TransactionRequest.new, []⟩) 1 =
      (fun _ => List.replicate 32 0)
        (1 :: Eip2930TransactionRequest.rlp ⟨TransactionRequest.new, []⟩ 1) :=
  (nonlegacy_sighash_tag_then_payload (fun _ => List.replicate 32 0)
    (fun _ => by simp) ⟨TransactionRequest.new, []⟩ ⟨none, none, none, none, none⟩ 1).1

/-- C3 counterexample: the claim states that envelope deserialization accepts
the bare untagged representation of a legacy payload.  At the concrete legacy
value of the source's own test (recipient = address 0, value = 100), decoding
the untagged representation through the envelope's deserializer does not
yield the envelope value: the internally tagged deserializer requires the
`"type"` field and fails. -/
theorem untagged_legacy_decode_fails_concrete :
    TypedTransaction.decodeTagged
        (TransactionRequest.encodeUntagged ⟨none, some (.address 0), some 100, none⟩) ≠
      some (TypedTransaction.Legacy ⟨none, some (.address 0), some 100, none⟩) := by
  decide

/-- C3 (amended): for every legacy envelope value, the tagged representation
decodes through the envelope deserializer back to the same value, the same
tagged representation also decodes as the bare inner payload type to the
wrapped payload (the two decodes agree), and decoding the bare untagged
representation through the envelope deserializer fails (no `"type"` field). -/
theorem legacy_tagged_decode_both_forms (p : TransactionRequest) :
    TypedTransaction.decodeTagged (TypedTransaction.encodeTagged (.Legacy p)) =
      some (.Legacy p) ∧
    TransactionRequest.decode (TypedTransaction.encodeTagged (.Legacy p)) = some p ∧
    TypedTransaction.decodeTagged (TransactionRequest.encodeUntagged p) = none := by
  obtain ⟨f, t, v, d⟩ := p
  rcases f with _ | f <;> rcases t with _ | (s | a) <;> rcases v with _ | v <;>
    rcases d with _ | d <;> exact ⟨rfl, rfl, rfl⟩

/-- C4: for every envelope value of every variant, decoding the tagged
external representation produced by encoding it yields the same value. -/
theorem tagged_roundtrip (v : TypedTransaction) :
    TypedTransaction.decodeTagged v.encodeTagged = some v := by
  rcases v with ⟨f, t, val, d⟩ | ⟨⟨f, t, val, d⟩, al⟩ | ⟨f, t, val, d, mf⟩
  · rcases f with _ | f <;> rcases t with _ | (s | a) <;> rcases val with _ | val <;>
      rcases d with _ | d <;> rfl
  · rcases f with _ | f <;> rcases t with _ | (s | a) <;> rcases val with _ | val <;>
      rcases d with _ | d <;> rfl
  · rcases f with _ | f <;> rcases t with _ | (s | a) <;> rcases val with _ | val <;>
      rcases d with _ | d <;> rcases mf with _ | mf <;> rfl

/-- C5: decoding an external representation whose `"type"` tag is a string
other than `"0x00"`, `"0x01"` or `"0x02"` fails: the variant set is closed
and unknown tags are rejected, never coerced to an existing variant. -/
theorem unknown_tag_decode_fails (fields : List (String × Json)) (t : String)
    (hfind : Json.find "type" fields = some (.str t))
    (h0 : t ≠ "0x00") (h1 : t ≠ "0x01") (h2 : t ≠ "0x02") :
    TypedTransaction.decodeTagged (.obj fields) = none := by
  simp only [TypedTransaction.decodeTagged, hfind]
  simp [h0, h1, h2]

/-- C5 witness: the theorem applied at the concrete unrecognized tag
`"0x03"`. -/
theorem unknown_tag_decode_fails_witness :
    TypedTransaction.decodeTagged (.obj [("type", .str "0x03")]) = none :=
  unknown_tag_decode_fails [("type", .str "0x03")] "0x03" rfl
    (by decide) (by decide) (by decide)

/-- C6: every envelope value's tagged representation is an object whose
`"type"` field is the active variant's fixed two-hex-digit discriminant
string, whatever the payload's field contents. -/
theorem tagged_encoding_discriminant_stable (v : TypedTransaction) :
    ∃ fields, v.encodeTagged = .obj fields ∧
      Json.find "type" fields = some (.str v.typeTag) := by
  rcases v with p | p | p <;> exact ⟨_, rfl, rfl⟩

/-- C7: on every variant, `set_to` followed by `to` reads back `some` of the
written recipient and `set_data` followed by `data` reads back `some` of the
written bytes; and on an envelope built from a payload whose sender,
recipient or data field is unset, the corresponding accessor returns `none`
rather than failing. -/
theorem accessor_mutator_consistency (v : TypedTransaction) (a : NameOrAddress) (d : Bytes) :
    (v.set_to a).to = some a ∧ (v.set_data d).data = some d ∧
    (∀ p : TransactionRequest, p.«from» = none → (TypedTransaction.Legacy p).«from» = none) ∧
    (∀ p : TransactionRequest, p.«to» = none → (TypedTransaction.Legacy p).to = none) ∧
    (∀ p : TransactionRequest, p.data = none → (TypedTransaction.Legacy p).data = none) ∧
    (∀ p : Eip2930TransactionRequest,
      p.tx.«from» = none → (TypedTransaction.Eip2930 p).«from» = none) ∧
    (∀ p : Eip2930TransactionRequest,
      p.tx.«to» = none → (TypedTransaction.Eip2930 p).to = none) ∧
    (∀ p : Eip2930TransactionRequest,
      p.tx.data = none → (TypedTransaction.Eip2930 p).data = none) ∧
    (∀ p : Eip1559TransactionRequest,
      p.«from» = none → (TypedTransaction.Eip1559 p).«from» = none) ∧
    (∀ p : Eip1559TransactionRequest,
      p.«to» = none → (TypedTransaction.Eip1559 p).to = none) ∧
    (∀ p : Eip1559TransactionRequest,
      p.data = none → (TypedTransaction.Eip1559 p).data = none) := by
  refine ⟨?_, ?_, fun p h => h, fun p h => h, fun p h => h, fun p h => h, fun p h => h,
    fun p h => h, fun p h => h, fun p h => h, fun p h => h⟩
  · rcases v with p | p | p <;> rfl
  · rcases v with p | p | p <;> rfl

/-- C7 witness: the theorem applied at a fresh legacy envelope, the concrete
recipient `address 5` and empty call data; the unset-field part is discharged
at the fresh payload whose sender is unset. -/
theorem accessor_mutator_consistency_witness :
    ((TypedTransaction.Legacy TransactionRequest.new).set_to (.address 5)).to =
      some (.address 5) ∧
    (TypedTransaction.Legacy TransactionRequest.new).«from» = none :=
  ⟨(accessor_mutator_consistency (.Legacy TransactionRequest.new) (.address 5) []).1,
   (accessor_mutator_consistency (.Legacy TransactionRequest.new) (.address 5) []).2.2.1
     TransactionRequest.new rfl⟩

/-- C8: `sighash` is deterministic — it is a pure function of the envelope
value and the chain id, so two calls on equal values with equal chain ids
produce equal digests. -/
theorem sighash_deterministic (keccak256 : List Nat → List Nat)
    (t₁ t₂ : TypedTransaction) (c₁ c₂ : Nat) (ht : t₁ = t₂) (hc : c₁ = c₂) :
    TypedTransaction.sighash keccak256 t₁ c₁ =
      TypedTransaction.sighash keccak256 t₂ c₂ := by
  rw [ht, hc]

/-- C8 witness: the theorem applied at a concrete hash function, envelope
value and chain id. -/
theorem sighash_deterministic_witness :
    TypedTransaction.sighash (fun l => l) (.Legacy TransactionRequest.new) 1 =
      TypedTransaction.sighash (fun l => l) (.Legacy TransactionRequest.new) 1 :=
  sighash_deterministic (fun l => l) _ _ 1 1 rfl rfl

/-- C9: the three payload-to-envelope conversions are total Lean functions,
each lands in its fixed variant (hence fixed discriminant tag) with the
payload stored unchanged, each is injective, and payloads of different
concrete types land in distinct envelope values. -/
theorem payload_conversion_fixed_variant_injective :
    (∀ p, TypedTransaction.fromTransactionRequest p = .Legacy p) ∧
    (∀ p, TypedTransaction.fromEip2930TransactionRequest p = .Eip2930 p) ∧
    (∀ p, TypedTransaction.fromEip1559TransactionRequest p = .Eip1559 p) ∧
    (∀ p q : TransactionRequest,
      TypedTransaction.fromTransactionRequest p =
        TypedTransaction.fromTransactionRequest q → p = q) ∧
    (∀ p q : Eip2930TransactionRequest,
      TypedTransaction.fromEip2930TransactionRequest p =
        TypedTransaction.fromEip2930TransactionRequest q → p = q) ∧
    (∀ p q : Eip1559TransactionRequest,
      TypedTransaction.fromEip1559TransactionRequest p =
        TypedTransaction.fromEip1559TransactionRequest q → p = q) ∧
    (∀ (p : TransactionRequest) (q : Eip2930TransactionRequest),
      TypedTransaction.fromTransactionRequest p ≠
        TypedTransaction.fromEip2930TransactionRequest q) ∧
    (∀ (p : TransactionRequest) (q : Eip1559TransactionRequest),
      TypedTransaction.fromTransactionRequest p ≠
        TypedTransaction.fromEip1559TransactionRequest q) ∧
    (∀ (p : Eip2930TransactionRequest) (q : Eip1559TransactionRequest),
      TypedTransaction.fromEip2930TransactionRequest p ≠
        TypedTransaction.fromEip1559TransactionRequest q) ∧
    (∀ p, (TypedTransaction.fromTransactionRequest p).typeTag = "0x00") ∧
    (∀ p, (TypedTransaction.fromEip2930TransactionRequest p).typeTag = "0x01") ∧
    (∀ p, (TypedTransaction.fromEip1559TransactionRequest p).typeTag = "0x02") :=
  ⟨fun _ => rfl, fun _ => rfl, fun _ => rfl,
   fun _ _ h => TypedTransaction.Legacy.inj h,
   fun _ _ h => TypedTransaction.Eip2930.inj h,
   fun _ _ h => TypedTransaction.Eip1559.inj h,
   fun _ _ h => TypedTransaction.noConfusion h,
   fun _ _ h => TypedTransaction.noConfusion h,
   fun _ _ h => TypedTransaction.noConfusion h,
   fun _ => rfl, fun _ => rfl, fun _ => rfl⟩

/-- C9 witness: the theorem applied at concrete payloads — the fixed-variant
part at a fresh legacy request and the injectivity part at two equal fresh
requests. -/
theorem payload_conversion_witness :
    TypedTransaction.fromTransactionRequest TransactionRequest.new =
      TypedTransaction.Legacy TransactionRequest.new ∧
    TransactionRequest.new = TransactionRequest.new :=
  ⟨payload_conversion_fixed_variant_injective.1 TransactionRequest.new,
   payload_conversion_fixed_variant_injective.2.2.2.1
     TransactionRequest.new TransactionRequest.new rfl⟩

/-- C10: `set_to` rewrites only the recipient field of the active variant's
payload and `set_data` only the data field: the result is the same variant
wrapping the same payload with exactly that one field replaced (all other
fields are carried over unchanged by the record update). -/
theorem mutators_frame (p : TransactionRequest) (q : Eip2930TransactionRequest)
    (r : Eip1559TransactionRequest) (a : NameOrAddress) (d : Bytes) :
    (TypedTransaction.Legacy p).set_to a = .Legacy { p with «to» := some a } ∧
    (TypedTransaction.Eip2930 q).set_to a =
      .Eip2930 { q with tx := { q.tx with «to» := some a } } ∧
    (TypedTransaction.Eip1559 r).set_to a = .Eip1559 { r with «to» := some a } ∧
    (TypedTransaction.Legacy p).set_data d = .Legacy { p with data := some d } ∧
    (TypedTransaction.Eip2930 q).set_data d =
      .Eip2930 { q with tx := { q.tx with data := some d } } ∧
    (TypedTransaction.Eip1559 r).set_data d = .Eip1559 { r with data := some d } :=
  ⟨rfl, rfl, rfl, rfl, rfl, rfl⟩
